import Mathlib

/-!
Verification of the PRISM round-based simulation engine (repository
`ianphil/prism`).  The Python source is shallowly embedded: pure functions
become Lean functions, in-place mutation becomes explicit state passing,
machine integers are `Nat`/`Int`/`Rat` (Python integers are unbounded, so no
modular arithmetic is needed), and fallible code returns `Option`/`Except`.

Embedded modules:
  * `prism/statechart/states.py`        → `AgentState`
  * `prism/statechart/transitions.py`   → `Transition`, `StateTransition`
  * `prism/statechart/statechart.py`    → `Statechart.fire`, `valid_targets`,
                                          `valid_triggers`
  * `prism/simulation/statechart_factory.py` → `socialMediaStatechart`
  * `prism/agents/social_agent.py`      → `SocialAgent` operations
  * `prism/statechart/reasoner.py`      → `StatechartReasoner._parse_response`
  * `prism/simulation/triggers.py`      → `determine_trigger`
  * `prism/simulation/executors/decision.py` → `AgentDecisionExecutor.execute`
  * `prism/simulation/executors/state_update.py` → `_handle_like`
  * `prism/simulation/state.py`         → `SimulationState`, metrics
  * `prism/simulation/checkpointer.py`  → save / load / path computation
  * `prism/simulation/controller.py`    → `resume_from_checkpoint`
-/

namespace Prism

/-! ## `prism/statechart/states.py` — the `AgentState` enum -/

/-- The eight behavioural states of `AgentState(str, Enum)`. -/
inductive AgentState where
  | IDLE
  | SCROLLING
  | EVALUATING
  | COMPOSING
  | ENGAGING_LIKE
  | ENGAGING_REPLY
  | ENGAGING_RESHARE
  | RESTING
deriving DecidableEq, Repr, Inhabited

/-- The `.value` of each enum member: the lowercase wire string. -/
def stateValue : AgentState → String
  | .IDLE => "idle"
  | .SCROLLING => "scrolling"
  | .EVALUATING => "evaluating"
  | .COMPOSING => "composing"
  | .ENGAGING_LIKE => "engaging_like"
  | .ENGAGING_REPLY => "engaging_reply"
  | .ENGAGING_RESHARE => "engaging_reshare"
  | .RESTING => "resting"

/-- `AgentState(<string>)` — looking an enum member up by its wire value
(raises, i.e. `none`, for an unknown string). -/
def stateOfString (s : String) : Option AgentState :=
  if s = "idle" then some .IDLE
  else if s = "scrolling" then some .SCROLLING
  else if s = "evaluating" then some .EVALUATING
  else if s = "composing" then some .COMPOSING
  else if s = "engaging_like" then some .ENGAGING_LIKE
  else if s = "engaging_reply" then some .ENGAGING_REPLY
  else if s = "engaging_reshare" then some .ENGAGING_RESHARE
  else if s = "resting" then some .RESTING
  else none

theorem stateOfString_stateValue (st : AgentState) :
    stateOfString (stateValue st) = some st := by
  cases st <;> rfl

theorem stateValue_injective : Function.Injective stateValue := by
  intro a b h
  cases a <;> cases b <;> first | rfl | simp [stateValue] at h

/-! ## Python truthiness for guard return values

`Statechart.fire` coerces a guard's return value with `bool(...)`; a guard may
also raise.  We model Python values that a guard can return with a small
universe `PyVal` carrying its truthiness, and a raising guard by
`Except.error`. -/

/-- A Python value as relevant to `bool(...)` coercion in `fire`. -/
inductive PyVal where
  | pyBool (b : Bool)
  | pyInt (n : Int)
  | pyStr (s : String)
  | pyNone
deriving DecidableEq, Repr

/-- Python `bool(...)` on a `PyVal`. -/
def truthy : PyVal → Bool
  | .pyBool b => b
  | .pyInt n => n != 0
  | .pyStr s => s != ""
  | .pyNone => false

/-! ## `prism/statechart/transitions.py` -/

/-- `Transition` (frozen dataclass): trigger, source, target, optional guard,
optional action.  Guards and actions are Python callables over
`(agent, context)`; we keep the agent type `α` and the context type `γ`
abstract.  A call either raises (`Except.error`) or returns a value.  The
guard's value feeds `bool(...)`; the action's return value is discarded, so
`Unit` suffices. -/
structure Transition (α γ : Type) where
  trigger : String
  source : AgentState
  target : AgentState
  guard : Option (α → γ → Except Unit PyVal) := none
  action : Option (α → γ → Except Unit Unit) := none

/-- `StateTransition` history record: from_state, to_state, trigger, context.
The wall-clock `timestamp: datetime` field is outside the shallow embedding
(it never influences control flow in the embedded code) and is omitted.  The
`context` dict is only ever given `{"round": state.round_number}` (or an
arbitrary test dict) by the embedded code, so it is modelled as the optional
round number. -/
structure StateTransition where
  from_state : AgentState
  to_state : AgentState
  trigger : String
  context : Option Nat := none
deriving DecidableEq, Repr

/-! ## `prism/statechart/statechart.py` -/

/-- The `Statechart` data: states, transitions, initial.  (Constructor
validation that sources/targets/initial lie in `states` is not needed by the
claims under verification.) -/
structure Statechart (α γ : Type) where
  states : List AgentState
  transitions : List (Transition α γ)
  initial : AgentState

/-- One guard check inside the `fire` loop: no guard means the transition
fires; a guard's result is coerced with `bool(...)`; an exception is treated
as `False`. -/
def guardPasses {α γ : Type} (t : Transition α γ) (agent : α) (ctx : γ) : Bool :=
  match t.guard with
  | none => true
  | some g =>
    match g agent ctx with
    | .ok v => truthy v
    | .error _ => false

/-- `Statechart.fire` (statechart.py lines 57–101): scan `transitions` in
definition order; skip on trigger mismatch, source mismatch, falsy guard
result, or guard exception; return the first surviving transition's target;
`None` when the scan exhausts the list.  Note the loop body never references
`transition.action`. -/
def fire {α γ : Type} (transitions : List (Transition α γ)) (trigger : String)
    (current_state : AgentState) (agent : α) (ctx : γ) : Option AgentState :=
  match transitions with
  | [] => none
  | t :: rest =>
    if t.trigger ≠ trigger then fire rest trigger current_state agent ctx
    else if t.source ≠ current_state then fire rest trigger current_state agent ctx
    else if guardPasses t agent ctx then some t.target
    else fire rest trigger current_state agent ctx

/-- `Statechart.valid_targets`: all targets of transitions matching
`(source, trigger)`, irrespective of guards, in definition order. -/
def validTargets {α γ : Type} (transitions : List (Transition α γ))
    (state : AgentState) (trigger : String) : List AgentState :=
  (transitions.filter (fun t => t.source = state ∧ t.trigger = trigger)).map
    (fun t => t.target)

/-- `Statechart.valid_triggers`: deduplicated trigger names of transitions
out of `state`, first occurrence first. -/
def validTriggers {α γ : Type} (transitions : List (Transition α γ))
    (state : AgentState) : List String :=
  ((transitions.filter (fun t => t.source = state)).map
    (fun t => t.trigger)).dedup

/-- Replace a transition's `action` by `None`, leaving everything else. -/
def stripAction {α γ : Type} (t : Transition α γ) : Transition α γ :=
  { t with action := none }

theorem fire_eq_find {α γ : Type} (transitions : List (Transition α γ))
    (trigger : String) (current_state : AgentState) (agent : α) (ctx : γ) :
    fire transitions trigger current_state agent ctx =
      (transitions.find? (fun t =>
        t.trigger = trigger ∧ t.source = current_state ∧
          guardPasses t agent ctx)).map (fun t => t.target) := by
  induction transitions with
  | nil => rfl
  | cons t rest ih =>
    by_cases htr : t.trigger = trigger
    · by_cases hsrc : t.source = current_state
      · by_cases hg : guardPasses t agent ctx
        · simp [fire, htr, hsrc, hg, List.find?]
        · simp [fire, htr, hsrc, hg, List.find?, ih]
      · simp [fire, htr, hsrc, List.find?, ih]
    · simp [fire, htr, List.find?, ih]

theorem fire_stripAction {α γ : Type} (transitions : List (Transition α γ))
    (trigger : String) (current_state : AgentState) (agent : α) (ctx : γ) :
    fire (transitions.map stripAction) trigger current_state agent ctx =
      fire transitions trigger current_state agent ctx := by
  induction transitions with
  | nil => rfl
  | cons t rest ih =>
    simp only [List.map_cons, fire, stripAction, guardPasses, ih]

/-! ## `prism/rag/models.py` — the `Post` model

`timestamp: datetime` is carried through checkpoints as its ISO-8601 wire
string (pydantic's JSON mode) and never inspected by the embedded code, so it
is modelled directly as that wire string.  Floats (`velocity`,
`engagement_threshold`) are modelled as `Rat`: Python floats only pass
through the embedded code unchanged. -/

/-- The `Literal["image", "video", "gif"]` media type. -/
inductive MediaType where
  | image
  | video
  | gif
deriving DecidableEq, Repr

/-- Wire string of a media type. -/
def mediaTypeValue : MediaType → String
  | .image => "image"
  | .video => "video"
  | .gif => "gif"

/-- Parse a media-type wire string (pydantic `Literal` validation). -/
def mediaTypeOfString (s : String) : Option MediaType :=
  if s = "image" then some .image
  else if s = "video" then some .video
  else if s = "gif" then some .gif
  else none

/-- `Post`: immutable identity plus mutable engagement counters. -/
structure Post where
  id : String
  author_id : String
  text : String
  timestamp : String
  has_media : Bool := false
  media_type : Option MediaType := none
  media_description : Option String := none
  parent_id : Option String := none
  likes : Nat := 0
  reshares : Nat := 0
  replies : Nat := 0
  velocity : Rat := 0
deriving DecidableEq, Repr

/-! ## `prism/agents/social_agent.py` — `SocialAgent` -/

/-- The checkpoint-persisted and statechart-relevant fields of a
`SocialAgent`.  The LLM client, prompts and sampling options are transport
state outside the embedded core. -/
structure AgentM where
  agent_id : String
  name : String
  interests : List String
  personality : String
  timeout_threshold : Nat
  ticks_in_state : Nat
  state : AgentState
  state_history : List StateTransition
  max_history_depth : Nat
  engagement_threshold : Rat
deriving DecidableEq, Repr

/-- `SocialAgent.__init__` state initialisation: ticks 0, state IDLE, empty
history.  (The constructor's `ValueError`s for empty interests /
non-positive timeout are not needed by the claims and are not modelled.) -/
def initSocialAgent (agent_id name : String) (interests : List String)
    (personality : String) (timeout_threshold : Nat := 5)
    (max_history_depth : Nat := 100) (engagement_threshold : Rat := 1/2) :
    AgentM :=
  { agent_id := agent_id
    name := name
    interests := interests
    personality := personality
    timeout_threshold := timeout_threshold
    ticks_in_state := 0
    state := .IDLE
    state_history := []
    max_history_depth := max_history_depth
    engagement_threshold := engagement_threshold }

/-- `SocialAgent.tick`: increment `ticks_in_state`. -/
def tick (a : AgentM) : AgentM :=
  { a with ticks_in_state := a.ticks_in_state + 1 }

/-- `SocialAgent.is_timed_out`: `ticks_in_state > timeout_threshold`. -/
def isTimedOut (a : AgentM) : Bool :=
  a.ticks_in_state > a.timeout_threshold

/-- `SocialAgent.should_engage`: `relevance >= engagement_threshold`. -/
def shouldEngage (a : AgentM) (relevance : Rat) : Bool :=
  relevance ≥ a.engagement_threshold

/-- The history pruning step `self.state_history[-self.max_history_depth:]`,
taken when `len(self.state_history) > self.max_history_depth`.  Python slice
semantics: for `d ≥ 1` the slice keeps the last `d` entries; for `d = 0` the
slice `[-0:]` is `[0:]`, the whole list. -/
def pruneHistory (d : Nat) (h : List StateTransition) : List StateTransition :=
  if h.length > d then
    if d = 0 then h else h.drop (h.length - d)
  else h

/-- `SocialAgent.transition_to`: no-op on self-transition; otherwise append a
history record, prune to `max_history_depth`, set the new state and reset
`ticks_in_state` to 0. -/
def transitionTo (a : AgentM) (new_state : AgentState) (trigger : String)
    (context : Option Nat := none) : AgentM :=
  if new_state = a.state then a
  else
    let entry : StateTransition :=
      { from_state := a.state, to_state := new_state, trigger := trigger,
        context := context }
    { a with
      state_history := pruneHistory a.max_history_depth (a.state_history ++ [entry])
      state := new_state
      ticks_in_state := 0 }

/-! ## `prism/simulation/state.py` -/

/-- `EngagementMetrics`: four cumulative counters (`ge=0`, so `Nat`). -/
structure EngagementMetrics where
  total_likes : Nat := 0
  total_reshares : Nat := 0
  total_replies : Nat := 0
  posts_created : Nat := 0
deriving DecidableEq, Repr

/-- `EngagementMetrics.increment_like`. -/
def incrementLike (m : EngagementMetrics) : EngagementMetrics :=
  { m with total_likes := m.total_likes + 1 }

/-- The reasoner as seen by the decision executor: a deterministic function
from `(agent, current_state, trigger, options, context)` to a chosen state,
abstracting `await StatechartReasoner.decide`.  The context passed at the
call site is `{"feed": feed}`, so the context argument is the feed. -/
def Reasoner : Type :=
  AgentM → AgentState → String → List AgentState → List Post → AgentState

/-- `SimulationState`: posts, agents, round counter, metrics, statechart,
optional reasoner.  Guards in the statechart receive the decision executor's
context `{"feed": feed, "state": state}`; the state component of that dict
would make the type cyclic, and no embedded chart has guards, so the guard
context type is instantiated with the feed. -/
structure SimulationState where
  posts : List Post
  agents : List AgentM
  round_number : Nat := 0
  metrics : EngagementMetrics := {}
  statechart : Statechart AgentM (List Post)
  reasoner : Option Reasoner := none

/-- `SimulationState.get_post_by_id`: first post with the given id. -/
def getPostById (s : SimulationState) (post_id : String) : Option Post :=
  s.posts.find? (fun p => p.id = post_id)

/-- `SimulationState.advance_round`. -/
def advanceRound (s : SimulationState) : SimulationState :=
  { s with round_number := s.round_number + 1 }

/-! ## `prism/simulation/statechart_factory.py` -/

/-- The transition table of `create_social_media_statechart`, in declaration
order; no guards, no actions. -/
def socialMediaTransitions : List (Transition AgentM (List Post)) :=
  [ { trigger := "start_browsing", source := .IDLE, target := .SCROLLING },
    { trigger := "sees_post", source := .SCROLLING, target := .EVALUATING },
    { trigger := "feed_empty", source := .SCROLLING, target := .RESTING },
    { trigger := "decides", source := .EVALUATING, target := .COMPOSING },
    { trigger := "decides", source := .EVALUATING, target := .ENGAGING_LIKE },
    { trigger := "decides", source := .EVALUATING, target := .ENGAGING_REPLY },
    { trigger := "decides", source := .EVALUATING, target := .ENGAGING_RESHARE },
    { trigger := "decides", source := .EVALUATING, target := .SCROLLING },
    { trigger := "finishes_composing", source := .COMPOSING, target := .SCROLLING },
    { trigger := "finishes_engaging", source := .ENGAGING_LIKE, target := .SCROLLING },
    { trigger := "finishes_engaging", source := .ENGAGING_REPLY, target := .SCROLLING },
    { trigger := "finishes_engaging", source := .ENGAGING_RESHARE, target := .SCROLLING },
    { trigger := "rested", source := .RESTING, target := .IDLE },
    { trigger := "timeout", source := .SCROLLING, target := .IDLE },
    { trigger := "timeout", source := .EVALUATING, target := .IDLE },
    { trigger := "timeout", source := .COMPOSING, target := .IDLE },
    { trigger := "timeout", source := .ENGAGING_LIKE, target := .IDLE },
    { trigger := "timeout", source := .ENGAGING_REPLY, target := .IDLE },
    { trigger := "timeout", source := .ENGAGING_RESHARE, target := .IDLE },
    { trigger := "timeout", source := .RESTING, target := .IDLE } ]

/-- `create_social_media_statechart()`. -/
def socialMediaStatechart : Statechart AgentM (List Post) :=
  { states := [.IDLE, .SCROLLING, .EVALUATING, .COMPOSING, .ENGAGING_LIKE,
               .ENGAGING_REPLY, .ENGAGING_RESHARE, .RESTING]
    transitions := socialMediaTransitions
    initial := .IDLE }

/-! ## `prism/simulation/triggers.py` -/

/-- `determine_trigger(agent, feed, state)`: map the agent's state (and feed
emptiness) to the trigger name.  The `state` argument is unused by the
source body. -/
def determineTrigger (a : AgentM) (feed : List Post) : String :=
  match a.state with
  | .IDLE => "start_browsing"
  | .SCROLLING => if feed ≠ [] then "sees_post" else "feed_empty"
  | .EVALUATING => "decides"
  | .COMPOSING => "finishes_composing"
  | .ENGAGING_LIKE => "finishes_engaging"
  | .ENGAGING_REPLY => "finishes_engaging"
  | .ENGAGING_RESHARE => "finishes_engaging"
  | .RESTING => "rested"

/-! ## `prism/simulation/results.py` and `executors/decision.py` -/

/-- `ActionResult`: action name, optional target post id, optional content. -/
structure ActionResult where
  action : String
  target_post_id : Option String
  content : Option String := none
deriving DecidableEq, Repr

/-- `DecisionResult` as constructed by `AgentDecisionExecutor.execute`.
(`results.py` declares the dataclass without the `reasoner_used` field the
executor passes; we embed the record the executor builds and the logging
executor and the tests read.) -/
structure DecisionResult where
  agent_id : String
  trigger : String
  from_state : AgentState
  to_state : AgentState
  action : Option ActionResult := none
  reasoner_used : Bool := false
deriving DecidableEq, Repr

/-- `AgentDecisionExecutor._execute_action`: derive the action from the
*from*-state; like/reply/reshare target the head of the feed. -/
def executeAction (from_state : AgentState) (feed : List Post) : ActionResult :=
  let target_post_id := (feed.head?).map (fun p => p.id)
  match from_state with
  | .COMPOSING => { action := "compose", target_post_id := none, content := none }
  | .ENGAGING_LIKE => { action := "like", target_post_id := target_post_id }
  | .ENGAGING_REPLY =>
      { action := "reply", target_post_id := target_post_id, content := none }
  | .ENGAGING_RESHARE => { action := "reshare", target_post_id := target_post_id }
  | _ => { action := "scroll", target_post_id := none }

/-- `AgentDecisionExecutor.execute` for one agent turn: tick, determine the
trigger (timeout takes precedence), fire the statechart; when fire returns
`None`, fall back on `valid_targets` — reasoner for ≥ 2 targets when present,
the single target, the first target without a reasoner, or stay put; apply
the transition when the new state differs; derive the action from the
from-state.  Returns the `DecisionResult` together with the updated agent
(the source mutates the agent in place). -/
def executeDecision (agent : AgentM) (state : SimulationState)
    (feed : List Post) : DecisionResult × AgentM :=
  let agent := tick agent
  let from_state := agent.state
  let trigger :=
    if isTimedOut agent then "timeout" else determineTrigger agent feed
  let fired := fire state.statechart.transitions trigger agent.state agent feed
  let step : Option AgentState × Bool :=
    match fired with
    | some t => (some t, false)
    | none =>
      let targets := validTargets state.statechart.transitions agent.state trigger
      match state.reasoner with
      | some r =>
        if targets.length > 1 then
          (some (r agent agent.state trigger targets feed), true)
        else if targets.length = 1 then (targets.head?, false)
        else (none, false)
      | none =>
        if targets.length = 1 then (targets.head?, false)
        else if targets.length > 1 then (targets.head?, false)
        else (none, false)
  let new_state := step.1
  let reasoner_used := step.2
  let (to_state, agent) :=
    match new_state with
    | some ns =>
      if ns ≠ agent.state then
        (ns, transitionTo agent ns trigger (some state.round_number))
      else (agent.state, agent)
    | none => (agent.state, agent)
  let action := executeAction from_state feed
  (⟨agent.agent_id, trigger, from_state, to_state, some action, reasoner_used⟩,
    agent)

/-! ## `prism/simulation/executors/state_update.py` — `_handle_like`

`get_post_by_id` returns the first post with the target id, and
`post.likes += 1` mutates that aliased list element; functionally, the first
matching post's `likes` is incremented in place in the list. -/

/-- Increment `likes` of the first post in the list with the given id. -/
def likeFirst : List Post → String → List Post
  | [], _ => []
  | p :: ps, tid =>
    if p.id = tid then { p with likes := p.likes + 1 } :: ps
    else p :: likeFirst ps tid

/-- `StateUpdateExecutor._handle_like`: `None` target is a no-op; a target id
with no matching post is a no-op; otherwise the found post's `likes` and
`metrics.total_likes` each gain 1. -/
def handleLike (s : SimulationState) (target_post_id : Option String) :
    SimulationState :=
  match target_post_id with
  | none => s
  | some tid =>
    match getPostById s tid with
    | some _ =>
      { s with posts := likeFirst s.posts tid, metrics := incrementLike s.metrics }
    | none => s

/-! ## `prism/statechart/reasoner.py` — `_parse_response`

We embed the successful-JSON path of `_parse_response`: after
`json.loads`, the code reads `data.get("next_state", "")`, lowercases it and
scans `options` for the first member whose `.value` equals it, falling back
to `options[0]` (modelled as `head?`; `decide` guarantees non-emptiness).
`pyLower` lowercases character by character, which covers every state wire
value. -/

/-- Python `str.lower()` character by character (ASCII suffices for every
state wire value). -/
def pyLower (s : String) : String :=
  ⟨s.data.map Char.toLower⟩

/-- The option scan of `_parse_response` given the extracted `next_state`
string. -/
def parseNextState (next_state : String) (options : List AgentState) :
    Option AgentState :=
  let state_value := pyLower next_state
  match options.find? (fun opt => stateValue opt = state_value) with
  | some opt => some opt
  | none => options.head?

/-! ## `prism/simulation/checkpointer.py` -/

/-- The JSON dict produced for one post by `_serialize_post`
(`post.model_dump(mode="json")`): every declared field, media type and
timestamp in wire form. -/
structure PostDict where
  id : String
  author_id : String
  text : String
  timestamp : String
  has_media : Bool
  media_type : Option String
  media_description : Option String
  parent_id : Option String
  likes : Nat
  reshares : Nat
  replies : Nat
  velocity : Rat
deriving DecidableEq, Repr

/-- `_serialize_post`. -/
def serializePost (p : Post) : PostDict :=
  { id := p.id
    author_id := p.author_id
    text := p.text
    timestamp := p.timestamp
    has_media := p.has_media
    media_type :=
      match p.media_type with
      | none => none
      | some m => some (mediaTypeValue m)
    media_description := p.media_description
    parent_id := p.parent_id
    likes := p.likes
    reshares := p.reshares
    replies := p.replies
    velocity := p.velocity }

/-- `Post(**p)` on load: pydantic re-validates the `Literal` media type and
the `media_type ⇒ has_media` consistency validator; failure raises. -/
def postOfDict (d : PostDict) : Option Post :=
  let media_type? : Option (Option MediaType) :=
    match d.media_type with
    | none => some none
    | some s =>
      match mediaTypeOfString s with
      | none => none
      | some m => some (some m)
  match media_type? with
  | none => none
  | some mt =>
    if ¬d.has_media ∧ mt ≠ none then none
    else
      some { id := d.id, author_id := d.author_id, text := d.text,
             timestamp := d.timestamp, has_media := d.has_media,
             media_type := mt, media_description := d.media_description,
             parent_id := d.parent_id, likes := d.likes,
             reshares := d.reshares, replies := d.replies,
             velocity := d.velocity }

/-- The dict produced for one agent by `_serialize_agent`: exactly the seven
persisted fields, the state as its wire value. -/
structure AgentDict where
  agent_id : String
  name : String
  interests : List String
  personality : String
  state : String
  ticks_in_state : Nat
  engagement_threshold : Rat
deriving DecidableEq, Repr

/-- `_serialize_agent`. -/
def serializeAgent (a : AgentM) : AgentDict :=
  { agent_id := a.agent_id
    name := a.name
    interests := a.interests
    personality := a.personality
    state := stateValue a.state
    ticks_in_state := a.ticks_in_state
    engagement_threshold := a.engagement_threshold }

/-- `CheckpointData`: the serialised snapshot.  Its `metrics` dict holds
exactly the four counters, isomorphic to `EngagementMetrics`. -/
structure CheckpointData where
  version : String := "1.0"
  round_number : Nat
  posts : List PostDict
  agents : List AgentDict
  metrics : EngagementMetrics
  state_distribution : List (String × Nat)
  timestamp : String
deriving DecidableEq, Repr

/-- `queries.state_distribution` rendered with `state.value` keys as in
`Checkpointer.save`: every state appears, with the count of agents in it. -/
def stateDistribution (agents : List AgentM) : List (String × Nat) :=
  [AgentState.IDLE, .SCROLLING, .EVALUATING, .COMPOSING, .ENGAGING_LIKE,
   .ENGAGING_REPLY, .ENGAGING_RESHARE, .RESTING].map
    (fun st => (stateValue st, (agents.filter (fun a => a.state = st)).length))

/-- The `CheckpointData` built by `Checkpointer.save`; `now` stands for
`datetime.now(timezone.utc).isoformat()`. -/
def saveCheckpoint (state : SimulationState) (now : String) : CheckpointData :=
  { version := "1.0"
    round_number := state.round_number
    posts := state.posts.map serializePost
    agents := state.agents.map serializeAgent
    metrics := { total_likes := state.metrics.total_likes
                 total_reshares := state.metrics.total_reshares
                 total_replies := state.metrics.total_replies
                 posts_created := state.metrics.posts_created }
    state_distribution := stateDistribution state.agents
    timestamp := now }

/-- `[Post(**p) for p in data["posts"]]` on load: rebuild each post in
order, raising (`none`) on the first invalid dict. -/
def loadPosts : List PostDict → Option (List Post)
  | [] => some []
  | d :: ds =>
    match postOfDict d with
    | none => none
    | some p =>
      match loadPosts ds with
      | none => none
      | some ps => some (p :: ps)

/-- `Checkpointer.load` with an agent factory: reject unsupported versions,
rebuild posts with `Post(**p)`, rebuild agents through the factory, rebuild
metrics, inject statechart and reasoner.  (The factory-less mode, which
leaves agents as raw dicts, is not exercised by the claims.)  The source
also re-runs `SimulationState`'s non-empty-agents validator. -/
def loadCheckpoint (data : CheckpointData) (statechart : Statechart AgentM (List Post))
    (reasoner : Option Reasoner) (agent_factory : AgentDict → AgentM) :
    Except String SimulationState :=
  if data.version ≠ "1.0" then
    .error ("Unsupported checkpoint version: " ++ data.version)
  else
    match loadPosts data.posts with
    | none => .error "post validation failed"
    | some posts =>
      let agents := data.agents.map agent_factory
      if agents.isEmpty then .error "agents list must not be empty"
      else
        .ok { round_number := data.round_number
              posts := posts
              agents := agents
              metrics := data.metrics
              statechart := statechart
              reasoner := reasoner }

/-! ### Checkpoint file naming

`save` computes `filename = f"checkpoint_round_{state.round_number:04d}.json"`,
`temp_path = path.with_suffix(".tmp")`, writes the temp file, renames it over
`path`, and returns `path`. -/

/-- One decimal digit as a character. -/
def digitChar10 (d : Nat) : Char := Char.ofNat (48 + d)

/-- Decimal digit accumulation with structural fuel (`n + 1` steps always
suffice because the argument shrinks by a factor of ten). -/
def natDigitsAux : Nat → Nat → List Char
  | 0, _ => []
  | fuel + 1, n =>
    if n < 10 then [digitChar10 n]
    else natDigitsAux fuel (n / 10) ++ [digitChar10 (n % 10)]

/-- Decimal digits of `n`, most significant first (Python `str(n)` for a
non-negative int). -/
def natDigits (n : Nat) : List Char :=
  natDigitsAux (n + 1) n

/-- Python `f"{n:04d}"`: the decimal digits left-padded with zeros to width
four. -/
def pad4 (n : Nat) : String :=
  let ds := natDigits n
  ⟨List.replicate (4 - ds.length) '0' ++ ds⟩

/-- The checkpoint file name for a round. -/
def checkpointFileName (round_number : Nat) : String :=
  "checkpoint_round_" ++ pad4 round_number ++ ".json"

/-- Strip the final extension of a file name: returns the part before the
last dot when a dot exists. -/
def stripLastExt : List Char → Option (List Char)
  | [] => none
  | c :: rest =>
    match stripLastExt rest with
    | some stem => some (c :: stem)
    | none => if c = '.' then some [] else none

/-- `pathlib.Path.with_suffix` on a file name: replace the final extension
(from the last dot) with `suffix`, or append `suffix` when the name has no
dot.  (pathlib's special cases for names beginning with a dot do not arise
for checkpoint file names.) -/
def withSuffix (name suffix : String) : String :=
  match stripLastExt name.data with
  | some stem => ⟨stem ++ suffix.data⟩
  | none => ⟨name.data ++ suffix.data⟩

/-- A file-system operation performed by `Checkpointer.save`. -/
inductive FileOp where
  | write (path : String)
  | rename (src dst : String)
deriving DecidableEq, Repr

/-- The file operations of `Checkpointer.save`, in order, together with the
returned path (file names relative to the checkpoint directory). -/
def savePathOps (round_number : Nat) : List FileOp × String :=
  let path := checkpointFileName round_number
  let temp_path := withSuffix path ".tmp"
  ([FileOp.write temp_path, FileOp.rename temp_path path], path)

/-! ## `prism/simulation/controller.py` -/

/-- `RoundResult`. -/
structure RoundResult where
  round_number : Nat
  decisions : List DecisionResult := []

/-- `SimulationResult`. -/
structure SimulationResult where
  total_rounds : Nat
  final_metrics : EngagementMetrics
  rounds : List RoundResult := []

/-- `SimulationConfig` fields consumed by the controller. -/
structure SimConfig where
  max_rounds : Nat
  checkpoint_frequency : Nat := 1
  checkpoint_dir : Option String := none

/-- `RoundController._should_checkpoint`. -/
def shouldCheckpoint (round_number : Nat) (config : SimConfig) : Bool :=
  config.checkpoint_dir.isSome && round_number % config.checkpoint_frequency = 0

/-- The per-round loop body shared by `run_simulation` and
`resume_from_checkpoint`: `run_round` is abstracted as a state-transforming
function (the real one drives the feed/decision/update/logging pipeline with
LLM and vector-store I/O); then `advance_round`; the checkpoint save is pure
I/O and does not alter the state.  Returns the accumulated `RoundResult`s and
the final state. -/
def controllerLoop (runRound : SimulationState → SimulationState × RoundResult)
    (n : Nat) (state : SimulationState) : List RoundResult × SimulationState :=
  match n with
  | 0 => ([], state)
  | k + 1 =>
    let (state, round_result) := runRound state
    let state := advanceRound state
    let (rest, final) := controllerLoop runRound k state
    (round_result :: rest, final)

/-- `RoundController.resume_from_checkpoint`: load the checkpoint, compute
`remaining_rounds = config.max_rounds - state.round_number` (Python
`range(remaining)` runs zero times when the difference is non-positive,
matching `Nat` subtraction), and continue the loop.  Returns the
`SimulationResult` and the final state. -/
def resumeFromCheckpoint (data : CheckpointData) (config : SimConfig)
    (statechart : Statechart AgentM (List Post)) (reasoner : Option Reasoner)
    (agent_factory : AgentDict → AgentM)
    (runRound : SimulationState → SimulationState × RoundResult) :
    Except String (SimulationResult × SimulationState) :=
  match loadCheckpoint data statechart reasoner agent_factory with
  | .error e => .error e
  | .ok state =>
    let remaining_rounds := config.max_rounds - state.round_number
    match controllerLoop runRound remaining_rounds state with
    | (rounds, final) =>
      .ok ({ total_rounds := config.max_rounds
             final_metrics := final.metrics
             rounds := rounds }, final)

/-! ## Theorems -/

/-- C4: `fire` scans the transitions in declaration order and returns the
target of the first transition whose trigger and source both match and whose
guard, if present, passes — where `guardPasses` evaluates a missing guard as
true, coerces a returned value by Python truthiness, and treats a raised
exception as false so that scanning continues — and returns `none` when no
transition matches. -/
theorem fire_returns_first_matching_transition {α γ : Type}
    (transitions : List (Transition α γ)) (trigger : String)
    (current_state : AgentState) (agent : α) (ctx : γ) :
    fire transitions trigger current_state agent ctx =
      (transitions.find? (fun t =>
        t.trigger = trigger ∧ t.source = current_state ∧
          guardPasses t agent ctx)).map (fun t => t.target) :=
  fire_eq_find transitions trigger current_state agent ctx

/-- C2 (code bug): `Statechart.fire` never executes a transition's action.
On the failing input — a single `start`-triggered transition from IDLE to
SCROLLING carrying an action — `fire` returns the target, and for every
transition list `fire` is unchanged when every action is stripped, because
the loop body never references `transition.action`; the repository's own
tests (`test_fire_executes_action_when_transition_matches`) and the
`Transition.action` docstring say the action runs when the transition
fires. -/
theorem fire_never_executes_actions :
    fire [({ trigger := "start", source := .IDLE, target := .SCROLLING,
             guard := none,
             action := some (fun _ _ => .error ()) } : Transition Unit Unit)]
        "start" .IDLE () () = some .SCROLLING
    ∧ ∀ (α γ : Type) (transitions : List (Transition α γ)) (trigger : String)
        (current_state : AgentState) (agent : α) (ctx : γ),
        fire (transitions.map stripAction) trigger current_state agent ctx =
          fire transitions trigger current_state agent ctx :=
  ⟨rfl, fun _ _ ts trig cur a c => fire_stripAction ts trig cur a c⟩

/-- C9: `is_timed_out()` is `ticks_in_state > timeout_threshold` with strict
inequality: false at `ticks_in_state = timeout_threshold`, true at
`timeout_threshold + 1`. -/
theorem is_timed_out_strict (a : AgentM) :
    isTimedOut a = decide (a.timeout_threshold < a.ticks_in_state)
    ∧ isTimedOut { a with ticks_in_state := a.timeout_threshold } = false
    ∧ isTimedOut { a with ticks_in_state := a.timeout_threshold + 1 } = true := by
  refine ⟨rfl, ?_, ?_⟩ <;> simp [isTimedOut]

/-- C10: the reasoner's `_parse_response` lowercases the LLM's `next_state`
value before scanning the candidate list, so a response matching a
candidate's lowercase wire value only after lowercasing (for example
"ENGAGING_LIKE") selects that candidate instead of the first-option
fallback. -/
theorem parse_response_case_insensitive (options : List AgentState)
    (c : AgentState) (next_state : String) (hc : c ∈ options)
    (hlow : pyLower next_state = stateValue c) :
    parseNextState next_state options = some c := by
  unfold parseNextState
  have hex : ∃ x ∈ options, stateValue x = pyLower next_state :=
    ⟨c, hc, hlow.symm⟩
  have hsome : (options.find? (fun opt =>
      stateValue opt = pyLower next_state)).isSome := by
    rw [List.find?_isSome]
    simpa using hex
  obtain ⟨x, hx⟩ := Option.isSome_iff_exists.mp hsome
  have hpx := List.find?_some hx
  have hxc : x = c := by
    apply stateValue_injective
    have : stateValue x = pyLower next_state := by simpa using hpx
    rw [this, hlow]
  simp only [hx, hxc]

/-- C10 witness: the five `decides` candidates and the uppercase response
"ENGAGING_LIKE" select `ENGAGING_LIKE`. -/
theorem parse_response_case_insensitive_witness :
    parseNextState "ENGAGING_LIKE"
      [.COMPOSING, .ENGAGING_LIKE, .ENGAGING_REPLY, .ENGAGING_RESHARE,
       .SCROLLING] = some .ENGAGING_LIKE :=
  parse_response_case_insensitive _ .ENGAGING_LIKE "ENGAGING_LIKE"
    (by decide) (by decide)

/-! ### Helper lemmas for the checkpoint file-name computation -/

theorem stripLastExt_of_no_dot (l : List Char) (h : '.' ∉ l) :
    stripLastExt l = none := by
  induction l with
  | nil => rfl
  | cons c rest ih =>
    have hc : c ≠ '.' := fun hc => h (hc ▸ List.mem_cons_self c rest)
    have hrest : '.' ∉ rest := fun hr => h (List.mem_cons_of_mem c hr)
    simp [stripLastExt, ih hrest, hc]

theorem stripLastExt_append_ext (pre ext : List Char) (h : '.' ∉ ext) :
    stripLastExt (pre ++ '.' :: ext) = some pre := by
  induction pre with
  | nil => simp [stripLastExt, stripLastExt_of_no_dot ext h]
  | cons c rest ih => simp [stripLastExt, ih]

theorem withSuffix_json_tmp (pre : String) :
    withSuffix (pre ++ ".json") ".tmp" = pre ++ ".tmp" := by
  unfold withSuffix
  have hdata : (pre ++ ".json").data = pre.data ++ '.' :: ['j', 's', 'o', 'n'] := by
    simp [String.data_append]
  rw [hdata, stripLastExt_append_ext pre.data _ (by decide)]
  cases pre
  rfl

/-- C7 counterexample: at round 5 the temporary file written by
`Checkpointer.save` is `checkpoint_round_0005.tmp` — `Path.with_suffix`
replaces the `.json` extension — not the `checkpoint_round_0005.json.tmp`
the claim names. -/
theorem checkpoint_temp_name_counterexample :
    (savePathOps 5).1 =
      [FileOp.write "checkpoint_round_0005.tmp",
       FileOp.rename "checkpoint_round_0005.tmp" "checkpoint_round_0005.json"]
    ∧ ("checkpoint_round_0005.tmp" : String) ≠
        "checkpoint_round_0005.json.tmp" := by
  constructor
  · decide
  · decide

/-- C7 amended: for every round, `save` writes
`<dir>/checkpoint_round_NNNN.tmp` (the four-digit zero-padded round number;
`with_suffix(".tmp")` replaces the `.json` extension rather than appending),
then renames it over the final path `<dir>/checkpoint_round_NNNN.json`, and
returns that final path. -/
theorem checkpoint_save_path_discipline (n : Nat) :
    savePathOps n =
      ([FileOp.write ("checkpoint_round_" ++ pad4 n ++ ".tmp"),
        FileOp.rename ("checkpoint_round_" ++ pad4 n ++ ".tmp")
          ("checkpoint_round_" ++ pad4 n ++ ".json")],
       "checkpoint_round_" ++ pad4 n ++ ".json") := by
  simp only [savePathOps, checkpointFileName, withSuffix_json_tmp]

/-! ### Decision-executor behaviour on the standard chart (C1) -/

/-- A concrete post for evaluation scenarios. -/
def testPost : Post :=
  { id := "p1", author_id := "a1", text := "Test post content",
    timestamp := "2025-01-01T00:00:00+00:00" }

/-- An agent sitting in `evaluating`. -/
def evalAgent : AgentM :=
  { initSocialAgent "test_agent" "Test Agent" ["technology"] "curious" with
    state := .EVALUATING }

/-- A reasoner that always chooses `engaging_like`. -/
def likeReasoner : Reasoner := fun _ _ _ _ _ => .ENGAGING_LIKE

/-- Simulation state with the standard chart and the `engaging_like`
reasoner present. -/
def evalState : SimulationState :=
  { posts := [], agents := [evalAgent], round_number := 0, metrics := {},
    statechart := socialMediaStatechart, reasoner := some likeReasoner }

/-- C1 counterexample: an agent in `evaluating` under the standard chart,
with a reasoner present that returns `engaging_like`.  The executor records
`reasoner_used = false` and moves the agent to `composing`: the five
guard-free `decides` transitions make `fire` return its first target, so the
`fire is None` branch that consults the reasoner is never reached. -/
theorem decision_executor_skips_reasoner_counterexample :
    (executeDecision evalAgent evalState [testPost]).1.reasoner_used = false
    ∧ (executeDecision evalAgent evalState [testPost]).1.to_state = .COMPOSING
    ∧ (executeDecision evalAgent evalState [testPost]).2.state = .COMPOSING :=
  ⟨rfl, rfl, rfl⟩

/-- C1 amended: for every agent in `evaluating` under the standard
social-media statechart that is not timed out after its tick, one
decision-executor turn fires the `decides` trigger, does **not** consult the
reasoner even when one is present (fire already returns the first `decides`
target because the five transitions carry no guards), records
`reasoner_used = false`, and records and applies to_state `composing`. -/
theorem decision_executor_standard_chart_decides (a : AgentM)
    (st : SimulationState) (feed : List Post) (r : Reasoner)
    (hchart : st.statechart = socialMediaStatechart)
    (_hreas : st.reasoner = some r)
    (hstate : a.state = .EVALUATING)
    (hnt : a.ticks_in_state + 1 ≤ a.timeout_threshold) :
    (executeDecision a st feed).1.reasoner_used = false
    ∧ (executeDecision a st feed).1.trigger = "decides"
    ∧ (executeDecision a st feed).1.to_state = .COMPOSING
    ∧ (executeDecision a st feed).2.state = .COMPOSING := by
  have htickst : (tick a).state = .EVALUATING := by simp [tick, hstate]
  have hnto : isTimedOut (tick a) = false := by
    simp only [isTimedOut, tick]
    simp only [decide_eq_false_iff_not, not_lt]
    omega
  have htrig : determineTrigger (tick a) feed = "decides" := by
    simp [determineTrigger, htickst]
  have hfire : fire socialMediaTransitions "decides" .EVALUATING (tick a) feed
      = some .COMPOSING := by
    simp [socialMediaTransitions, fire, guardPasses]
  have htrans : (transitionTo (tick a) .COMPOSING "decides"
      (some st.round_number)).state = .COMPOSING := by
    simp [transitionTo, htickst]
  have hch : socialMediaStatechart.transitions = socialMediaTransitions := rfl
  simp only [executeDecision, hchart, hnto, Bool.false_eq_true, if_false,
    htrig, htickst, hch, hfire]
  simp [htrans]

/-- C1 amended witness: the concrete `evaluating` agent, the standard chart,
the `engaging_like` reasoner, a one-post feed. -/
theorem decision_executor_standard_chart_decides_witness :
    (executeDecision evalAgent evalState [testPost]).1.reasoner_used = false
    ∧ (executeDecision evalAgent evalState [testPost]).1.trigger = "decides"
    ∧ (executeDecision evalAgent evalState [testPost]).1.to_state = .COMPOSING
    ∧ (executeDecision evalAgent evalState [testPost]).2.state = .COMPOSING :=
  decision_executor_standard_chart_decides evalAgent evalState [testPost]
    likeReasoner rfl rfl rfl (by decide)

/-! ### Like handling (C6) -/

theorem likeFirst_eq_set (posts : List Post) (tid : String) :
    ∀ (i : Nat) (h : i < posts.length),
    (∀ j (hj : j < i), (posts.get ⟨j, lt_trans hj h⟩).id ≠ tid) →
    (posts.get ⟨i, h⟩).id = tid →
    likeFirst posts tid =
      posts.set i
        { posts.get ⟨i, h⟩ with likes := (posts.get ⟨i, h⟩).likes + 1 } := by
  induction posts with
  | nil => intro i h; simp at h
  | cons p ps ih =>
    intro i h hfirst hid
    match i with
    | 0 =>
      simp only [List.get] at hid
      simp [likeFirst, hid, List.set]
    | j + 1 =>
      have hp : p.id ≠ tid := by
        have := hfirst 0 (by omega)
        simpa using this
      simp only [List.get] at hid
      simp only [likeFirst, hp, if_false, List.set]
      have hrec := ih j (by simpa using Nat.lt_of_succ_lt_succ h)
        (fun k hk => by
          have := hfirst (k + 1) (by omega)
          simpa using this)
        hid
      simp [hrec]

/-- C6: applying a like decision.  A `None` target id leaves the state
unchanged; a target id matching no post leaves the state unchanged; a target
id whose first match sits at index `i` yields exactly the state whose post
list is updated at `i` with `likes + 1` and whose metrics gain one
`total_likes` — every other post, the other three counters, the agents and
`round_number` are untouched by construction of the record update. -/
theorem handle_like_frame (s : SimulationState) :
    handleLike s none = s
    ∧ (∀ tid, (∀ p ∈ s.posts, p.id ≠ tid) → handleLike s (some tid) = s)
    ∧ (∀ tid (i : Nat) (h : i < s.posts.length),
        (∀ j (hj : j < i), (s.posts.get ⟨j, lt_trans hj h⟩).id ≠ tid) →
        (s.posts.get ⟨i, h⟩).id = tid →
        handleLike s (some tid) =
          { s with
            posts := s.posts.set i
              { s.posts.get ⟨i, h⟩ with
                likes := (s.posts.get ⟨i, h⟩).likes + 1 }
            metrics := incrementLike s.metrics }) := by
  refine ⟨rfl, ?_, ?_⟩
  · intro tid hnone
    have hfind : s.posts.find? (fun p => p.id = tid) = none := by
      rw [List.find?_eq_none]
      intro p hp
      simpa using hnone p hp
    simp [handleLike, getPostById, hfind]
  · intro tid i h hfirst hid
    have hmem : s.posts.get ⟨i, h⟩ ∈ s.posts := s.posts.get_mem i h
    have hfind : (s.posts.find? (fun p => p.id = tid)).isSome := by
      rw [List.find?_isSome]
      exact ⟨s.posts.get ⟨i, h⟩, hmem, by simpa using hid⟩
    obtain ⟨q, hq⟩ := Option.isSome_iff_exists.mp hfind
    simp only [handleLike, getPostById, hq]
    rw [likeFirst_eq_set s.posts tid i h hfirst hid]

/-- A second concrete post. -/
def testPost2 : Post :=
  { id := "p2", author_id := "a2", text := "Market update",
    timestamp := "2025-01-01T00:00:01+00:00" }

/-- State holding two posts for the like-handling witness. -/
def likeState : SimulationState :=
  { posts := [testPost, testPost2], agents := [evalAgent],
    statechart := socialMediaStatechart }

/-- C6 witness: liking "p2" in a two-post state increments exactly that
post's likes and `total_likes`. -/
theorem handle_like_frame_witness :
    handleLike likeState (some "p2") =
      { likeState with
        posts := likeState.posts.set 1
          { likeState.posts.get ⟨1, by decide⟩ with
            likes := (likeState.posts.get ⟨1, by decide⟩).likes + 1 }
        metrics := incrementLike likeState.metrics } :=
  (handle_like_frame likeState).2.2 "p2" 1 (by decide)
    (fun j hj => by
      have hj0 : j = 0 := by omega
      subst hj0
      show testPost.id ≠ "p2"
      decide)
    (by decide)

/-! ### History bounding (C8)

Sequences of the two history-touching agent operations are modelled as op
lists; `specApply` replays the same sequence keeping the *unpruned*
append-only history, following the spec's words ("pruning removes the oldest
entries first, keeping the most recent max_history_depth entries"), against
which the implementation's pruned history is compared. -/

/-- An agent operation: `tick()` or `transition_to(...)`. -/
inductive AgentOp where
  | tickOp
  | transitionOp (new_state : AgentState) (trigger : String) (context : Option Nat)

/-- Run one operation on the embedded agent. -/
def applyOp (a : AgentM) : AgentOp → AgentM
  | .tickOp => tick a
  | .transitionOp ns trg ctx => transitionTo a ns trg ctx

/-- Run a sequence of operations on the embedded agent. -/
def applyOps (a : AgentM) (ops : List AgentOp) : AgentM :=
  ops.foldl applyOp a

/-- The most recent `k` entries of a history. -/
def lastN (k : Nat) (l : List StateTransition) : List StateTransition :=
  l.drop (l.length - k)

/-- Specification replay (no pruning): track the current state and the full
append-only history; self-transitions append nothing, ticks touch nothing. -/
def specStep : AgentState × List StateTransition → AgentOp →
    AgentState × List StateTransition
  | (s, h), .tickOp => (s, h)
  | (s, h), .transitionOp ns trg ctx =>
    if ns = s then (s, h)
    else (ns, h ++ [{ from_state := s, to_state := ns, trigger := trg,
                      context := ctx }])

/-- Replay a sequence of operations on the specification state. -/
def specApply (p : AgentState × List StateTransition) (ops : List AgentOp) :
    AgentState × List StateTransition :=
  ops.foldl specStep p

theorem lastN_length_le (k : Nat) (l : List StateTransition) :
    (lastN k l).length ≤ k := by
  simp only [lastN, List.length_drop]
  omega

theorem pruneHistory_lastN (d : Nat) (hd : 1 ≤ d)
    (h : List StateTransition) (e : StateTransition) :
    pruneHistory d (lastN d h ++ [e]) = lastN d (h ++ [e]) := by
  have hlen : (lastN d h).length = h.length - (h.length - d) := by
    simp [lastN, List.length_drop]
  by_cases hcase : h.length < d
  · have h1 : lastN d h = h := by
      simp [lastN, Nat.sub_eq_zero_of_le (le_of_lt hcase)]
    have h2 : lastN d (h ++ [e]) = h ++ [e] := by
      have : h.length + 1 ≤ d := hcase
      simp [lastN, Nat.sub_eq_zero_of_le (by simpa using this)]
    rw [h1, h2, pruneHistory]
    simp only [List.length_append, List.length_singleton]
    rw [if_neg (by omega)]
  · push_neg at hcase
    have hlen' : (lastN d h).length = d := by omega
    rw [pruneHistory, if_pos (by simp [hlen']), if_neg (by omega)]
    have hdrop1 : (lastN d h ++ [e]).length - d = 1 := by
      simp [hlen']
    rw [hdrop1]
    have hle : (1 : Nat) ≤ (lastN d h).length := by omega
    rw [List.drop_append_of_le_length hle]
    have : (lastN d h).drop 1 = h.drop (h.length - d + 1) := by
      simp only [lastN, List.drop_drop]
    rw [this]
    have hx : (h ++ [e]).length - d = h.length - d + 1 := by
      simp only [List.length_append, List.length_singleton]
      omega
    simp only [lastN, hx]
    rw [List.drop_append_of_le_length (by omega)]

theorem applyOps_tracks_spec (ops : List AgentOp) :
    ∀ (a : AgentM) (h : List StateTransition),
    1 ≤ a.max_history_depth →
    a.state_history = lastN a.max_history_depth h →
    (applyOps a ops).state = (specApply (a.state, h) ops).1
    ∧ (applyOps a ops).state_history =
        lastN a.max_history_depth (specApply (a.state, h) ops).2
    ∧ (applyOps a ops).max_history_depth = a.max_history_depth := by
  induction ops with
  | nil =>
    intro a h _ hh
    exact ⟨rfl, hh, rfl⟩
  | cons op rest ih =>
    intro a h hd hh
    have happ : applyOps a (op :: rest) = applyOps (applyOp a op) rest := rfl
    have hspec : specApply (a.state, h) (op :: rest) =
        specApply (specStep (a.state, h) op) rest := rfl
    rw [happ, hspec]
    match op with
    | .tickOp =>
      have h1 : applyOp a .tickOp = tick a := rfl
      have h2 : specStep (a.state, h) .tickOp = (a.state, h) := rfl
      rw [h1, h2]
      exact ih (tick a) h hd hh
    | .transitionOp ns trg ctx =>
      by_cases hns : ns = a.state
      · have h1 : applyOp a (.transitionOp ns trg ctx) = a := by
          simp [applyOp, transitionTo, hns]
        have h2 : specStep (a.state, h) (.transitionOp ns trg ctx) =
            (a.state, h) := by
          simp [specStep, hns]
        rw [h1, h2]
        exact ih a h hd hh
      · have h1 : applyOp a (.transitionOp ns trg ctx) =
            { a with
              state_history := pruneHistory a.max_history_depth
                (a.state_history ++
                  [{ from_state := a.state, to_state := ns, trigger := trg,
                     context := ctx }])
              state := ns
              ticks_in_state := 0 } := by
          simp [applyOp, transitionTo, hns]
        have h2 : specStep (a.state, h) (.transitionOp ns trg ctx) =
            (ns, h ++ [{ from_state := a.state, to_state := ns, trigger := trg,
                         context := ctx }]) := by
          simp [specStep, hns]
        rw [h1, h2]
        have := ih
          { a with
            state_history := pruneHistory a.max_history_depth
              (a.state_history ++
                [{ from_state := a.state, to_state := ns, trigger := trg,
                   context := ctx }])
            state := ns
            ticks_in_state := 0 }
          (h ++ [{ from_state := a.state, to_state := ns, trigger := trg,
                   context := ctx }])
          hd
          (by
            simp only []
            rw [hh, pruneHistory_lastN a.max_history_depth hd])
        simpa using this

/-- C8 amended: for every agent built by the constructor with
`max_history_depth ≥ 1` and every sequence of `tick` / `transition_to`
operations, the history equals the most recent `max_history_depth` entries
of the unpruned append-only history (FIFO pruning), and in particular its
length never exceeds `max_history_depth`. -/
theorem agent_history_bounded (agent_id name : String)
    (interests : List String) (personality : String)
    (timeout_threshold d : Nat) (engagement_threshold : Rat)
    (ops : List AgentOp) (hd : 1 ≤ d) :
    (applyOps (initSocialAgent agent_id name interests personality
        timeout_threshold d engagement_threshold) ops).state_history =
      lastN d (specApply (.IDLE, []) ops).2
    ∧ (applyOps (initSocialAgent agent_id name interests personality
        timeout_threshold d engagement_threshold) ops).state_history.length ≤ d := by
  have h0 := applyOps_tracks_spec ops
    (initSocialAgent agent_id name interests personality
      timeout_threshold d engagement_threshold) [] hd (by simp [lastN, initSocialAgent])
  refine ⟨?_, ?_⟩
  · exact h0.2.1
  · rw [h0.2.1]
    exact lastN_length_le d _

/-- C8 amended witness: depth 2, three real transitions — the two most
recent entries remain. -/
theorem agent_history_bounded_witness :
    (applyOps (initSocialAgent "a1" "Ada" ["tech"] "curious" 5 2 (1/2))
        [.transitionOp .SCROLLING "start_browsing" none,
         .transitionOp .EVALUATING "sees_post" none,
         .transitionOp .COMPOSING "decides" none]).state_history =
      lastN 2 (specApply (.IDLE, [])
        [.transitionOp .SCROLLING "start_browsing" none,
         .transitionOp .EVALUATING "sees_post" none,
         .transitionOp .COMPOSING "decides" none]).2
    ∧ (applyOps (initSocialAgent "a1" "Ada" ["tech"] "curious" 5 2 (1/2))
        [.transitionOp .SCROLLING "start_browsing" none,
         .transitionOp .EVALUATING "sees_post" none,
         .transitionOp .COMPOSING "decides" none]).state_history.length ≤ 2 :=
  agent_history_bounded "a1" "Ada" ["tech"] "curious" 5 2 (1/2)
    [.transitionOp .SCROLLING "start_browsing" none,
     .transitionOp .EVALUATING "sees_post" none,
     .transitionOp .COMPOSING "decides" none] (by decide)

/-- C8 counterexample: with `max_history_depth = 0` a single transition
leaves one history entry — the Python slice `history[-0:]` is `history[0:]`,
the whole list, so pruning keeps everything and the bound
`len(state_history) ≤ max_history_depth` fails. -/
theorem agent_history_bound_counterexample :
    (initSocialAgent "a1" "Ada" ["tech"] "curious" 5 0 (1/2)).max_history_depth
      = 0
    ∧ (applyOps (initSocialAgent "a1" "Ada" ["tech"] "curious" 5 0 (1/2))
        [.transitionOp .SCROLLING "start_browsing" none]).state_history.length
      = 1 :=
  ⟨rfl, rfl⟩

/-! ### Checkpoint round trip (C3) -/

theorem mediaTypeOfString_mediaTypeValue (m : MediaType) :
    mediaTypeOfString (mediaTypeValue m) = some m := by
  cases m <;> rfl

theorem postOfDict_serializePost (p : Post)
    (hvalid : p.has_media = false → p.media_type = none) :
    postOfDict (serializePost p) = some p := by
  obtain ⟨pid, pauthor, ptext, pts, phm, pmt, pmd, ppid, pl, pr, prep, pv⟩ := p
  match pmt with
  | none => simp [postOfDict, serializePost]
  | some m =>
    have hm_true : phm = true := by
      cases phm
      · exact absurd (hvalid rfl) (by simp)
      · rfl
    subst hm_true
    simp [postOfDict, serializePost, mediaTypeOfString_mediaTypeValue]

theorem loadPosts_serializePost (posts : List Post)
    (hvalid : ∀ p ∈ posts, p.has_media = false → p.media_type = none) :
    loadPosts (posts.map serializePost) = some posts := by
  induction posts with
  | nil => rfl
  | cons p ps ih =>
    have hp := postOfDict_serializePost p (hvalid p (List.mem_cons_self p ps))
    have hps := ih (fun q hq => hvalid q (List.mem_cons_of_mem p hq))
    simp [loadPosts, hp, hps]

/-- C3: saving a checkpoint and loading it back — with an agent factory that
rebuilds an agent from its serialised dict — preserves `round_number`, the
metrics counters, the post list (hence the post set keyed by id with all
declared fields), and the `agent_id ↦ (state, ticks_in_state)` mapping.
`hposts` is pydantic's media-consistency invariant, which every constructed
`Post` satisfies; `hagents` is `SimulationState`'s non-empty-agents
validator. -/
theorem checkpoint_roundtrip (st : SimulationState) (now : String)
    (chart : Statechart AgentM (List Post)) (reasoner : Option Reasoner)
    (factory : AgentDict → AgentM)
    (hposts : ∀ p ∈ st.posts, p.has_media = false → p.media_type = none)
    (hagents : st.agents ≠ [])
    (hfid : ∀ d, (factory d).agent_id = d.agent_id)
    (hfstate : ∀ d s, stateOfString d.state = some s → (factory d).state = s)
    (hfticks : ∀ d, (factory d).ticks_in_state = d.ticks_in_state) :
    ∃ st', loadCheckpoint (saveCheckpoint st now) chart reasoner factory = .ok st'
      ∧ st'.round_number = st.round_number
      ∧ st'.metrics = st.metrics
      ∧ st'.posts = st.posts
      ∧ st'.agents.map (fun a => (a.agent_id, a.state, a.ticks_in_state))
          = st.agents.map (fun a => (a.agent_id, a.state, a.ticks_in_state)) := by
  have hmapm := loadPosts_serializePost st.posts hposts
  have hnonempty : ((st.agents.map serializeAgent).map factory).isEmpty = false := by
    rw [List.isEmpty_eq_false_iff_exists_mem]
    obtain ⟨a, ha⟩ := List.exists_mem_of_ne_nil st.agents hagents
    exact ⟨factory (serializeAgent a),
      List.mem_map_of_mem factory (List.mem_map_of_mem serializeAgent ha)⟩
  refine ⟨{ posts := st.posts
            agents := (st.agents.map serializeAgent).map factory
            round_number := st.round_number
            metrics := st.metrics
            statechart := chart
            reasoner := reasoner }, ?_, rfl, rfl, rfl, ?_⟩
  · simp only [loadCheckpoint, saveCheckpoint]
    rw [if_neg (by simp), hmapm]
    simp only [hnonempty, Bool.false_eq_true, if_false]
  · rw [List.map_map, List.map_map]
    apply List.map_congr_left
    intro a _
    have h1 := hfid (serializeAgent a)
    have h2 := hfstate (serializeAgent a) a.state
      (by simp [serializeAgent, stateOfString_stateValue])
    have h3 := hfticks (serializeAgent a)
    simp only [Function.comp_apply, Prod.mk.injEq]
    simp only [serializeAgent] at h1 h2 h3 ⊢
    exact ⟨h1, h2, h3⟩

/-- A concrete agent factory rebuilding an agent from its serialised dict
(the transient fields get constructor defaults, as the real factory's LLM
plumbing would). -/
def dictToAgent (d : AgentDict) : AgentM :=
  { agent_id := d.agent_id
    name := d.name
    interests := d.interests
    personality := d.personality
    timeout_threshold := 5
    ticks_in_state := d.ticks_in_state
    state := (stateOfString d.state).getD .IDLE
    state_history := []
    max_history_depth := 100
    engagement_threshold := d.engagement_threshold }

/-- C3 witness: the two-post, one-agent state round-trips through
save + load with `dictToAgent`. -/
theorem checkpoint_roundtrip_witness :
    ∃ st', loadCheckpoint (saveCheckpoint likeState "2025-01-02T00:00:00+00:00")
        socialMediaStatechart none dictToAgent = .ok st'
      ∧ st'.round_number = likeState.round_number
      ∧ st'.metrics = likeState.metrics
      ∧ st'.posts = likeState.posts
      ∧ st'.agents.map (fun a => (a.agent_id, a.state, a.ticks_in_state))
          = likeState.agents.map (fun a => (a.agent_id, a.state, a.ticks_in_state)) :=
  checkpoint_roundtrip likeState "2025-01-02T00:00:00+00:00"
    socialMediaStatechart none dictToAgent
    (by intro p hp; fin_cases hp <;> simp [testPost, testPost2])
    (by simp [likeState])
    (fun d => rfl)
    (fun d s h => by simp [dictToAgent, h])
    (fun d => rfl)

/-! ### Resume from checkpoint (C5) -/

theorem loadPosts_of_all_isSome :
    ∀ (ds : List PostDict), (∀ d ∈ ds, (postOfDict d).isSome) →
    ∃ ps, loadPosts ds = some ps := by
  intro ds
  induction ds with
  | nil => exact fun _ => ⟨[], rfl⟩
  | cons d rest ih =>
    intro hall
    obtain ⟨p, hp⟩ := Option.isSome_iff_exists.mp
      (hall d (List.mem_cons_self d rest))
    obtain ⟨ps, hps⟩ := ih (fun x hx => hall x (List.mem_cons_of_mem d hx))
    exact ⟨p :: ps, by simp [loadPosts, hp, hps]⟩

theorem controllerLoop_spec
    (runRound : SimulationState → SimulationState × RoundResult)
    (hr : ∀ s, (runRound s).1.round_number = s.round_number) :
    ∀ (n : Nat) (st : SimulationState),
    (controllerLoop runRound n st).1.length = n
    ∧ (controllerLoop runRound n st).2.round_number = st.round_number + n := by
  intro n
  induction n with
  | zero => exact fun st => ⟨rfl, rfl⟩
  | succ k ih =>
    intro st
    have h1 : controllerLoop runRound (k + 1) st =
        ((runRound st).2 :: (controllerLoop runRound k
            (advanceRound (runRound st).1)).1,
          (controllerLoop runRound k (advanceRound (runRound st).1)).2) := rfl
    have hk := ih (advanceRound (runRound st).1)
    have hav : (advanceRound (runRound st).1).round_number =
        st.round_number + 1 := by
      simp [advanceRound, hr st]
    have hk1 := hk.1
    have hk2 := hk.2
    constructor
    · simp only [h1, List.length_cons, hk1]
    · simp only [h1]
      omega

/-- C5: `resume_from_checkpoint` on a version-1.0 checkpoint saved at round
`r` with `max_rounds = m ≥ r` loads a state whose round number and metrics
are exactly the checkpoint's (total_likes preserved), then runs exactly
`m − r` additional rounds — `max_rounds` is the absolute target, not a
delta — ending with `round_number = m` and reporting `total_rounds = m`.
`hrr` records that the round executor never touches the round counter
(true of the source pipeline: only `advance_round` does). -/
theorem resume_runs_to_absolute_max (data : CheckpointData) (config : SimConfig)
    (chart : Statechart AgentM (List Post)) (reasoner : Option Reasoner)
    (factory : AgentDict → AgentM)
    (runRound : SimulationState → SimulationState × RoundResult)
    (hver : data.version = "1.0")
    (hposts : ∀ d ∈ data.posts, (postOfDict d).isSome)
    (hagents : data.agents ≠ [])
    (hrr : ∀ s, (runRound s).1.round_number = s.round_number)
    (hmr : data.round_number ≤ config.max_rounds) :
    ∃ st0 res stf,
      loadCheckpoint data chart reasoner factory = .ok st0
      ∧ st0.round_number = data.round_number
      ∧ st0.metrics = data.metrics
      ∧ resumeFromCheckpoint data config chart reasoner factory runRound
          = .ok (res, stf)
      ∧ res.rounds.length = config.max_rounds - data.round_number
      ∧ stf.round_number = config.max_rounds
      ∧ res.total_rounds = config.max_rounds := by
  obtain ⟨ps, hps⟩ := loadPosts_of_all_isSome data.posts hposts
  have hnonempty : (data.agents.map factory).isEmpty = false := by
    rw [List.isEmpty_eq_false_iff_exists_mem]
    obtain ⟨d, hd⟩ := List.exists_mem_of_ne_nil data.agents hagents
    exact ⟨factory d, List.mem_map_of_mem factory hd⟩
  have hload : loadCheckpoint data chart reasoner factory =
      .ok { round_number := data.round_number
            posts := ps
            agents := data.agents.map factory
            metrics := data.metrics
            statechart := chart
            reasoner := reasoner } := by
    simp only [loadCheckpoint, hver]
    rw [if_neg (by simp), hps]
    simp only [hnonempty, Bool.false_eq_true, if_false]
  set st0 : SimulationState :=
    { round_number := data.round_number
      posts := ps
      agents := data.agents.map factory
      metrics := data.metrics
      statechart := chart
      reasoner := reasoner } with hst0
  have hloop := controllerLoop_spec runRound hrr
    (config.max_rounds - st0.round_number) st0
  cases hcl : controllerLoop runRound (config.max_rounds - st0.round_number) st0 with
  | mk rs fin =>
    rw [hcl] at hloop
    obtain ⟨hl1, hl2⟩ := hloop
    have hl2f : fin.round_number =
        st0.round_number + (config.max_rounds - st0.round_number) := hl2
    refine ⟨st0, { total_rounds := config.max_rounds,
                   final_metrics := fin.metrics, rounds := rs }, fin,
            hload, rfl, rfl, ?_, ?_, ?_, rfl⟩
    · simp only [resumeFromCheckpoint, hload, hcl]
    · exact hl1
    · have h3 : st0.round_number = data.round_number := rfl
      omega

/-- A checkpoint at round 5 with `total_likes = 7`, one agent, no posts. -/
def resumeData : CheckpointData :=
  { version := "1.0"
    round_number := 5
    posts := []
    agents := [serializeAgent evalAgent]
    metrics := { total_likes := 7 }
    state_distribution := stateDistribution [evalAgent]
    timestamp := "2025-01-02T00:00:00+00:00" }

/-- C5 witness: resuming the round-5 checkpoint with `max_rounds = 8` and an
identity round executor runs exactly 3 rounds and ends at round 8 with the
checkpoint's metrics loaded. -/
theorem resume_runs_to_absolute_max_witness :
    ∃ st0 res stf,
      loadCheckpoint resumeData socialMediaStatechart none dictToAgent = .ok st0
      ∧ st0.round_number = resumeData.round_number
      ∧ st0.metrics = resumeData.metrics
      ∧ resumeFromCheckpoint resumeData { max_rounds := 8 }
          socialMediaStatechart none dictToAgent
          (fun s => (s, { round_number := s.round_number })) = .ok (res, stf)
      ∧ res.rounds.length = 8 - resumeData.round_number
      ∧ stf.round_number = 8
      ∧ res.total_rounds = 8 :=
  resume_runs_to_absolute_max resumeData { max_rounds := 8 }
    socialMediaStatechart none dictToAgent
    (fun s => (s, { round_number := s.round_number }))
    rfl
    (by intro d hd; simp [resumeData] at hd)
    (by simp [resumeData])
    (fun s => rfl)
    (by decide)

end Prism
